import Mathlib

/-
Verification of the PDF-to-images conversion orchestrator
(src/extractor/extractor.py) against its natural-language specification.

The whole script is sequential glue code: check that the pdf2image library
is importable, check that the poppler pdftoppm binary is locatable, check
that the source PDF is readable and the output directory writable, call
the rasterization routine once, and save each returned page image to disk.

The shallow embedding below models one run of the script as a pure
function of an abstract World (what the filesystem looks like, whether
the library is installed, what the rasterizer returns) and of the parsed
command-line arguments.  A run produces a trace of observable events
(checks performed, log lines, stdout prints, files saved, the single
rasterization call), the list of file writes it performed, and a Status
recording how the Python process ended: normal return, sys.exit(code),
or an uncaught exception.
-/

namespace Extractor

/-- Observable events of one run of the script, in program order. -/
inductive Event where
  | logInfo (msg : String)
  | logError (msg : String)
  | checkImport
  | checkPopplerAt (path : String)
  | checkWhich
  | checkIsFile (path : String)
  | checkReadable (path : String)
  | mkdirCall (dir : String)
  | checkWritable (dir : String)
  | rasterizeCall (pdf : String) (dpi : Nat) (fmt : String) (poppler : Option String)
  | stdout (s : String)
  | saveFile (path : String)
deriving DecidableEq

/-- How a run of the Python function ended: normal return, sys.exit(code),
or an uncaught exception carrying a message. -/
inductive Status where
  | ok
  | exited (code : Nat)
  | raised (msg : String)
deriving DecidableEq

/-- One in-memory page image as returned by convert_from_path.
content identifies the pixel data written on save; saveError is some e
when the Pillow save call would raise exception e for this page. -/
structure Page where
  content : Nat
  saveError : Option String
deriving DecidableEq

/-- The environment a run executes in: the Python runtime, the filesystem
and the external rasterization library, abstracted to what the script
observes of them. -/
structure World where
  pdf2imageInstalled : Bool
  isFile : String → Bool
  whichPdftoppm : Bool
  readable : String → Bool
  isDir : String → Bool
  makedirsOk : String → Bool
  writable : String → Bool
  convert_from_path : String → Nat → String → Option String → Except String (List Page)

/-- The parsed command-line arguments (parse_arguments). -/
structure Args where
  pdf_file : String
  output_dir : String
  dpi : Nat
  fmt : String
  poppler_path : Option String

/-- Result of running the main function: event trace, file writes
performed (path, content), and final status. -/
structure RunResult where
  trace : List Event
  writes : List (String × Nat)
  status : Status

/-- Result of the per-page save loop. -/
structure LoopOut where
  trace : List Event
  writes : List (String × Nat)
  status : Status

/-- Result at the process level: full trace (stderr traceback included for
an uncaught exception) and the process exit code. -/
structure ProcessResult where
  trace : List Event
  writes : List (String × Nat)
  exitCode : Nat

def msgNoPdf2image : String :=
  "The pdf2image library is not installed. Install it via: pip install pdf2image"

def msgNoPopplerAt (pp : String) : String :=
  "Poppler utility pdftoppm was not found in: " ++ pp

def msgNoPopplerPath : String :=
  "Poppler utility pdftoppm is not in your PATH. Please install Poppler or provide --poppler_path."

def msgPdfMissing (f : String) : String :=
  "PDF file " ++ f ++ " does not exist."

def msgPdfUnreadable (f : String) : String :=
  "PDF file " ++ f ++ " is not readable. Check permissions."

def msgMkdirFailed (d : String) : String :=
  "Failed to create output directory " ++ d

def msgDirUnwritable (d : String) : String :=
  "Output directory " ++ d ++ " is not writable. Check permissions."

def msgConverting (f : String) : String :=
  "Converting " ++ f ++ " to images..."

def msgJpeg : String :=
  "Jpeg does not have an alpha channel, and thus we might get OSError: cannot write RGBA as JPEG. In any case, jpeg is not an acceptable format. Feel free to make it acceptable by modifying the code."

def msgSaved (i : Nat) (f : String) : String :=
  "Saved page " ++ toString i ++ " to " ++ f

def msgComplete : String := "Conversion complete."

def msgImportErr : String := "ModuleNotFoundError: No module named pdf2image"

def msgTraceback (e : String) : String :=
  "Traceback (most recent call last): " ++ e

/-- Embeds the Python str.lower method on the ASCII strings the script
compares: each character is lowercased individually. -/
def pyLower (s : String) : String := ⟨s.data.map Char.toLower⟩

/-- Embeds check_dependencies (extractor.py lines 20-46): try to import
pdf2image, then look for the pdftoppm binary either inside the supplied
poppler_path or on the system PATH; each failure logs an error and calls
sys.exit(1). -/
def check_dependencies (w : World) (poppler_path : Option String) : List Event × Status :=
  if w.pdf2imageInstalled then
    match poppler_path with
    | some pp =>
      if w.isFile (pp ++ "/pdftoppm") then
        ([Event.checkImport, Event.checkPopplerAt pp], Status.ok)
      else
        ([Event.checkImport, Event.checkPopplerAt pp, Event.logError (msgNoPopplerAt pp)],
         Status.exited 1)
    | none =>
      if w.whichPdftoppm then
        ([Event.checkImport, Event.checkWhich], Status.ok)
      else
        ([Event.checkImport, Event.checkWhich, Event.logError msgNoPopplerPath],
         Status.exited 1)
  else
    ([Event.checkImport, Event.logError msgNoPdf2image], Status.exited 1)

/-- Embeds check_file_permissions (extractor.py lines 48-72): the PDF must
be an existing readable file; the output directory is created when absent
(os.makedirs, failure caught and fatal) and must be writable; each failure
logs an error and calls sys.exit(1). -/
def check_file_permissions (w : World) (pdf_file output_dir : String) : List Event × Status :=
  if w.isFile pdf_file then
    if w.readable pdf_file then
      if w.isDir output_dir then
        if w.writable output_dir then
          ([Event.checkIsFile pdf_file, Event.checkReadable pdf_file,
            Event.checkWritable output_dir], Status.ok)
        else
          ([Event.checkIsFile pdf_file, Event.checkReadable pdf_file,
            Event.checkWritable output_dir, Event.logError (msgDirUnwritable output_dir)],
           Status.exited 1)
      else
        if w.makedirsOk output_dir then
          if w.writable output_dir then
            ([Event.checkIsFile pdf_file, Event.checkReadable pdf_file,
              Event.mkdirCall output_dir, Event.checkWritable output_dir], Status.ok)
          else
            ([Event.checkIsFile pdf_file, Event.checkReadable pdf_file,
              Event.mkdirCall output_dir, Event.checkWritable output_dir,
              Event.logError (msgDirUnwritable output_dir)], Status.exited 1)
        else
          ([Event.checkIsFile pdf_file, Event.checkReadable pdf_file,
            Event.mkdirCall output_dir, Event.logError (msgMkdirFailed output_dir)],
           Status.exited 1)
    else
      ([Event.checkIsFile pdf_file, Event.checkReadable pdf_file,
        Event.logError (msgPdfUnreadable pdf_file)], Status.exited 1)
  else
    ([Event.checkIsFile pdf_file, Event.logError (msgPdfMissing pdf_file)], Status.exited 1)

/-- Embeds the per-page loop of convert_pdf_to_images (extractor.py lines
106-115): for each page at 1-based index idx, build the output filename,
print it, reject the jpeg format (error logged, sys.exit(1)), otherwise
save the page (which may raise) and log a confirmation line. -/
def save_pages (output_dir fmt : String) : List Page → Nat → LoopOut
  | [], _ => ⟨[], [], Status.ok⟩
  | page :: rest, idx =>
    let out_file := output_dir ++ "/page_" ++ toString idx ++ "." ++ fmt
    if pyLower fmt = "jpeg" then
      ⟨[Event.stdout out_file, Event.logError msgJpeg], [], Status.exited 1⟩
    else
      match page.saveError with
      | some e => ⟨[Event.stdout out_file], [], Status.raised e⟩
      | none =>
        let r := save_pages output_dir fmt rest (idx + 1)
        ⟨Event.stdout out_file :: Event.saveFile out_file ::
           Event.logInfo (msgSaved idx out_file) :: r.trace,
         (out_file, page.content) :: r.writes, r.status⟩

/-- Embeds convert_pdf_to_images (extractor.py lines 91-117): import
convert_from_path (raising if pdf2image is absent), log the start line,
invoke the rasterization call once, run the per-page save loop, and log
the completion line when the loop returns normally. -/
def convert_pdf_to_images (w : World) (pdf_file output_dir : String) (dpi : Nat)
    (fmt : String) (poppler_path : Option String) : RunResult :=
  if w.pdf2imageInstalled then
    let pre := [Event.logInfo (msgConverting pdf_file),
                Event.rasterizeCall pdf_file dpi fmt poppler_path]
    match w.convert_from_path pdf_file dpi fmt poppler_path with
    | Except.error e => ⟨pre, [], Status.raised e⟩
    | Except.ok pages =>
      let r := save_pages output_dir fmt pages 1
      match r.status with
      | Status.ok => ⟨pre ++ r.trace ++ [Event.logInfo msgComplete], r.writes, Status.ok⟩
      | st => ⟨pre ++ r.trace, r.writes, st⟩
  else ⟨[], [], Status.raised msgImportErr⟩

/-- The four debug prints of main (extractor.py lines 129-132). -/
def stdoutTrace (a : Args) : List Event :=
  [Event.stdout a.pdf_file, Event.stdout a.output_dir,
   Event.stdout a.fmt, Event.stdout (toString a.dpi)]

/-- Embeds main (extractor.py lines 119-141): run check_dependencies, then
check_file_permissions, then the debug prints, then the conversion; a
non-ok status from a check ends the run there. -/
def main (w : World) (a : Args) : RunResult :=
  match check_dependencies w a.poppler_path with
  | (dt, Status.ok) =>
    match check_file_permissions w a.pdf_file a.output_dir with
    | (pt, Status.ok) =>
      let conv := convert_pdf_to_images w a.pdf_file a.output_dir a.dpi a.fmt a.poppler_path
      ⟨dt ++ pt ++ stdoutTrace a ++ conv.trace, conv.writes, conv.status⟩
    | (pt, st) => ⟨dt ++ pt, [], st⟩
  | (dt, st) => ⟨dt, [], st⟩

/-- Runs main as the Python interpreter would run the script: a normal
return gives exit code 0, sys.exit(c) gives exit code c, and an uncaught
exception prints a traceback to the standard error stream and gives exit
code 1. -/
def runProcess (w : World) (a : Args) : ProcessResult :=
  let r := main w a
  match r.status with
  | Status.ok => ⟨r.trace, r.writes, 0⟩
  | Status.exited c => ⟨r.trace, r.writes, c⟩
  | Status.raised e => ⟨r.trace ++ [Event.logError (msgTraceback e)], r.writes, 1⟩

/-- Whether an event is an error log line. -/
def Event.isErrLog : Event → Bool
  | Event.logError _ => true
  | _ => false

/-- Whether a trace contains an error log line. -/
def hasErrorLog (t : List Event) : Bool := t.any Event.isErrLog

/-- Whether an event is a file save. -/
def Event.isSave : Event → Bool
  | Event.saveFile _ => true
  | _ => false

/-- Whether a trace contains a file save. -/
def hasSave (t : List Event) : Bool := t.any Event.isSave

/-- Number of file saves in a trace. -/
def countSaves (t : List Event) : Nat := (t.filter Event.isSave).length

/-- Whether an event is the rasterization call. -/
def Event.isRasterize : Event → Bool
  | Event.rasterizeCall _ _ _ _ => true
  | _ => false

/-- Whether a trace contains a rasterization call. -/
def hasRasterize (t : List Event) : Bool := t.any Event.isRasterize

/-- Number of rasterization calls in a trace. -/
def countRasterize (t : List Event) : Nat := (t.filter Event.isRasterize).length

/-- Whether an event is one of the precondition checks (or the directory
creation attempt, which belongs to the fourth check). -/
def Event.isCheck : Event → Bool
  | Event.checkImport => true
  | Event.checkPopplerAt _ => true
  | Event.checkWhich => true
  | Event.checkIsFile _ => true
  | Event.checkReadable _ => true
  | Event.mkdirCall _ => true
  | Event.checkWritable _ => true
  | _ => false

/-- The subsequence of precondition-check events of a trace. -/
def checkEvents (t : List Event) : List Event := t.filter Event.isCheck

/-- Whether the pdftoppm binary is locatable: at the supplied toolchain
path when one is given, otherwise on the system search path. -/
def popplerFound (w : World) : Option String → Bool
  | some pp => w.isFile (pp ++ "/pdftoppm")
  | none => w.whichPdftoppm

/-- Whether the output directory exists or can be created, and is writable. -/
def dirOk (w : World) (out : String) : Bool :=
  (w.isDir out || w.makedirsOk out) && w.writable out

/-- Whether every precondition check of a run passes. -/
def preOk (w : World) (a : Args) : Bool :=
  w.pdf2imageInstalled && popplerFound w a.poppler_path &&
    w.isFile a.pdf_file && w.readable a.pdf_file && dirOk w a.output_dir

/-- The second precondition-check event: poppler lookup at the supplied
path, or a PATH search. -/
def popplerEvent : Option String → Event
  | some pp => Event.checkPopplerAt pp
  | none => Event.checkWhich

/-- Trace of a fully passing check_dependencies call. -/
def depTrace : Option String → List Event
  | some pp => [Event.checkImport, Event.checkPopplerAt pp]
  | none => [Event.checkImport, Event.checkWhich]

/-- Trace of a fully passing check_file_permissions call. -/
def permTrace (w : World) (pdf out : String) : List Event :=
  [Event.checkIsFile pdf, Event.checkReadable pdf] ++
    (if w.isDir out then [] else [Event.mkdirCall out]) ++ [Event.checkWritable out]

/-- The output filenames the specification promises for an n-page document
when numbering starts at i: page_i.fmt, page_(i+1).fmt, and so on. -/
def pageNamesFrom (out fmt : String) : Nat → Nat → List String
  | 0, _ => []
  | n + 1, i => (out ++ "/page_" ++ toString i ++ "." ++ fmt) :: pageNamesFrom out fmt n (i + 1)

/-- The output filenames the specification promises for an n-page document:
page_1.fmt through page_n.fmt, 1-indexed, no zero-padding. -/
def pageNames (out fmt : String) (n : Nat) : List String := pageNamesFrom out fmt n 1

/-- A disk, as the map from paths to the content stored there. -/
def Disk : Type := String → Option Nat

/-- Applies a list of file writes to a disk in order; a later write to the
same path overwrites an earlier one. -/
def applyWrites : List (String × Nat) → Disk → Disk
  | [], d => d
  | pr :: rest, d =>
    applyWrites rest (fun p => if p = pr.1 then some pr.2 else d p)

/-- Walks a trace and checks that no file save occurs before the given
directory has been created: true when every saveFile event is preceded by
a mkdirCall for dir. -/
def savesAfterMkdir (dir : String) : List Event → Bool
  | [] => true
  | Event.saveFile _ :: _ => false
  | Event.mkdirCall d :: rest => if d = dir then true else savesAfterMkdir dir rest
  | _ :: rest => savesAfterMkdir dir rest

/-- A run that ended fatally at a precondition check: process exit code 1,
an error was logged, and the rasterization call was never reached. -/
def fatalStop (r : ProcessResult) : Prop :=
  r.exitCode = 1 ∧ hasErrorLog r.trace = true ∧ hasRasterize r.trace = false

/-- The full check-event sequence of a run whose four precondition checks
all pass (the directory-creation attempt appears exactly when the output
directory does not exist yet). -/
def fullChecks (w : World) (a : Args) : List Event :=
  [Event.checkImport, popplerEvent a.poppler_path,
   Event.checkIsFile a.pdf_file, Event.checkReadable a.pdf_file] ++
    (if w.isDir a.output_dir then [] else [Event.mkdirCall a.output_dir]) ++
    [Event.checkWritable a.output_dir]

/-- Specification of the precondition phase, from the claim: the four
checks run in the fixed order import, toolchain lookup, source readability,
destination writability; a failing check logs an error and exits the
process with a non-zero status, no later check and no rasterization call
runs after it; when every check passes, the rasterization call runs. -/
def checkPhaseSpec (w : World) (a : Args) (r : ProcessResult) : Prop :=
  (w.pdf2imageInstalled = false →
    checkEvents r.trace = [Event.checkImport] ∧ fatalStop r) ∧
  (w.pdf2imageInstalled = true → popplerFound w a.poppler_path = false →
    checkEvents r.trace = [Event.checkImport, popplerEvent a.poppler_path] ∧ fatalStop r) ∧
  (w.pdf2imageInstalled = true → popplerFound w a.poppler_path = true →
    w.isFile a.pdf_file = false →
    checkEvents r.trace =
      [Event.checkImport, popplerEvent a.poppler_path, Event.checkIsFile a.pdf_file] ∧
      fatalStop r) ∧
  (w.pdf2imageInstalled = true → popplerFound w a.poppler_path = true →
    w.isFile a.pdf_file = true → w.readable a.pdf_file = false →
    checkEvents r.trace =
      [Event.checkImport, popplerEvent a.poppler_path, Event.checkIsFile a.pdf_file,
       Event.checkReadable a.pdf_file] ∧ fatalStop r) ∧
  (w.pdf2imageInstalled = true → popplerFound w a.poppler_path = true →
    w.isFile a.pdf_file = true → w.readable a.pdf_file = true →
    w.isDir a.output_dir = false → w.makedirsOk a.output_dir = false →
    checkEvents r.trace =
      [Event.checkImport, popplerEvent a.poppler_path, Event.checkIsFile a.pdf_file,
       Event.checkReadable a.pdf_file, Event.mkdirCall a.output_dir] ∧ fatalStop r) ∧
  (w.pdf2imageInstalled = true → popplerFound w a.poppler_path = true →
    w.isFile a.pdf_file = true → w.readable a.pdf_file = true →
    (w.isDir a.output_dir || w.makedirsOk a.output_dir) = true →
    w.writable a.output_dir = false →
    checkEvents r.trace = fullChecks w a ∧ fatalStop r) ∧
  (preOk w a = true →
    checkEvents r.trace = fullChecks w a ∧ hasRasterize r.trace = true)

/-- Specification of destination handling, from the claim: when the output
directory does not exist, every page write is preceded by its creation;
when it cannot be created or is not writable, the run exits with code 1,
logs an error, writes no file and never reaches the rasterization call. -/
def destinationSpec (w : World) (a : Args) (r : ProcessResult) : Prop :=
  (w.isDir a.output_dir = false → savesAfterMkdir a.output_dir r.trace = true) ∧
  (dirOk w a.output_dir = false →
    r.exitCode = 1 ∧ hasErrorLog r.trace = true ∧ r.writes = [] ∧
      hasRasterize r.trace = false)

/-- A world where every precondition holds and the rasterizer returns two
pages with distinct contents. -/
def wTwoPages : World :=
  { pdf2imageInstalled := true
    isFile := fun _ => true
    whichPdftoppm := true
    readable := fun _ => true
    isDir := fun _ => true
    makedirsOk := fun _ => true
    writable := fun _ => true
    convert_from_path := fun _ _ _ _ => Except.ok [⟨10, none⟩, ⟨20, none⟩] }

/-- A world where every precondition holds and the rasterizer returns a
single page. -/
def wOnePage : World :=
  { pdf2imageInstalled := true
    isFile := fun _ => true
    whichPdftoppm := true
    readable := fun _ => true
    isDir := fun _ => true
    makedirsOk := fun _ => true
    writable := fun _ => true
    convert_from_path := fun _ _ _ _ => Except.ok [⟨7, none⟩] }

/-- A world where every precondition holds and the rasterizer returns an
empty page sequence. -/
def wZeroPages : World :=
  { pdf2imageInstalled := true
    isFile := fun _ => true
    whichPdftoppm := true
    readable := fun _ => true
    isDir := fun _ => true
    makedirsOk := fun _ => true
    writable := fun _ => true
    convert_from_path := fun _ _ _ _ => Except.ok [] }

/-- A world where every precondition holds but the rasterization call
raises an exception. -/
def wRaise : World :=
  { pdf2imageInstalled := true
    isFile := fun _ => true
    whichPdftoppm := true
    readable := fun _ => true
    isDir := fun _ => true
    makedirsOk := fun _ => true
    writable := fun _ => true
    convert_from_path := fun _ _ _ _ => Except.error "PDFPageCountError" }

/-- A world where the source PDF file does not exist; the library and the
toolchain are available. -/
def wNoPdf : World :=
  { pdf2imageInstalled := true
    isFile := fun _ => false
    whichPdftoppm := true
    readable := fun _ => false
    isDir := fun _ => true
    makedirsOk := fun _ => true
    writable := fun _ => true
    convert_from_path := fun _ _ _ _ => Except.ok [] }

/-- A world where the output directory does not exist yet but can be
created, and the rasterizer returns two pages. -/
def wMkdir : World :=
  { pdf2imageInstalled := true
    isFile := fun _ => true
    whichPdftoppm := true
    readable := fun _ => true
    isDir := fun _ => false
    makedirsOk := fun _ => true
    writable := fun _ => true
    convert_from_path := fun _ _ _ _ => Except.ok [⟨10, none⟩, ⟨20, none⟩] }

/-- Arguments of the scenario runs: input.pdf to out with the default
dpi, format png. -/
def aPng : Args := ⟨"input.pdf", "out", 200, "png", none⟩

/-- The same scenario with format jpeg. -/
def aJpeg : Args := ⟨"input.pdf", "out", 200, "jpeg", none⟩

/-- The same scenario with the spelling Jpg, which the rejection check
does not reject. -/
def aJpg : Args := ⟨"input.pdf", "out", 200, "Jpg", none⟩

/-- An empty disk. -/
def emptyDisk : Disk := fun _ => none

theorem dep_eq_ok (w : World) (pp : Option String) (h1 : w.pdf2imageInstalled = true)
    (h2 : popplerFound w pp = true) :
    check_dependencies w pp = (depTrace pp, Status.ok) := by
  cases pp <;> simp_all [check_dependencies, popplerFound, depTrace]

theorem perm_eq_ok (w : World) (pdf out : String) (h3 : w.isFile pdf = true)
    (h4 : w.readable pdf = true) (h5 : dirOk w out = true) :
    check_file_permissions w pdf out = (permTrace w pdf out, Status.ok) := by
  cases h6 : w.isDir out <;> simp_all [check_file_permissions, dirOk, permTrace]

theorem main_eq_of_preOk (w : World) (a : Args) (h : preOk w a = true) :
    main w a =
      ⟨depTrace a.poppler_path ++ permTrace w a.pdf_file a.output_dir ++ stdoutTrace a ++
        (convert_pdf_to_images w a.pdf_file a.output_dir a.dpi a.fmt a.poppler_path).trace,
       (convert_pdf_to_images w a.pdf_file a.output_dir a.dpi a.fmt a.poppler_path).writes,
       (convert_pdf_to_images w a.pdf_file a.output_dir a.dpi a.fmt a.poppler_path).status⟩ := by
  simp only [preOk, Bool.and_eq_true] at h
  obtain ⟨⟨⟨⟨h1, h2⟩, h3⟩, h4⟩, h5⟩ := h
  simp [main, dep_eq_ok w a.poppler_path h1 h2, perm_eq_ok w a.pdf_file a.output_dir h3 h4 h5]

theorem runProcess_trace_of_ok (w : World) (a : Args) (h : (main w a).status = Status.ok) :
    (runProcess w a).trace = (main w a).trace ∧ (runProcess w a).exitCode = 0 ∧
      (runProcess w a).writes = (main w a).writes := by
  simp [runProcess, h]

theorem runProcess_trace_of_exited (w : World) (a : Args) (c : Nat)
    (h : (main w a).status = Status.exited c) :
    (runProcess w a).trace = (main w a).trace ∧ (runProcess w a).exitCode = c ∧
      (runProcess w a).writes = (main w a).writes := by
  simp [runProcess, h]

theorem runProcess_trace_of_raised (w : World) (a : Args) (e : String)
    (h : (main w a).status = Status.raised e) :
    (runProcess w a).trace = (main w a).trace ++ [Event.logError (msgTraceback e)] ∧
      (runProcess w a).exitCode = 1 ∧ (runProcess w a).writes = (main w a).writes := by
  simp [runProcess, h]

theorem save_pages_cons_jpeg (out fmt : String) (p : Page) (ps : List Page) (i : Nat)
    (hj : pyLower fmt = "jpeg") :
    save_pages out fmt (p :: ps) i =
      ⟨[Event.stdout (out ++ "/page_" ++ toString i ++ "." ++ fmt), Event.logError msgJpeg],
       [], Status.exited 1⟩ := by
  simp [save_pages, hj]

theorem save_pages_checkEvents (out fmt : String) (ps : List Page) :
    ∀ i, checkEvents (save_pages out fmt ps i).trace = [] := by
  induction ps with
  | nil => intro i; simp [save_pages, checkEvents]
  | cons p rest ih =>
    intro i
    by_cases hj : pyLower fmt = "jpeg"
    · simp [save_pages, hj, checkEvents, Event.isCheck]
    · cases hse : p.saveError with
      | some e => simp [save_pages, hj, hse, checkEvents, Event.isCheck]
      | none =>
        have := ih (i + 1)
        simp [save_pages, hj, hse, checkEvents, Event.isCheck] at this ⊢
        exact this

theorem save_pages_countRasterize (out fmt : String) (ps : List Page) :
    ∀ i, countRasterize (save_pages out fmt ps i).trace = 0 := by
  induction ps with
  | nil => intro i; simp [save_pages, countRasterize]
  | cons p rest ih =>
    intro i
    by_cases hj : pyLower fmt = "jpeg"
    · simp [save_pages, hj, countRasterize, Event.isRasterize]
    · cases hse : p.saveError with
      | some e => simp [save_pages, hj, hse, countRasterize, Event.isRasterize]
      | none =>
        have := ih (i + 1)
        simp [save_pages, hj, hse, countRasterize, Event.isRasterize] at this ⊢
        exact this

theorem save_pages_exited_log (out fmt : String) (ps : List Page) :
    ∀ i c, (save_pages out fmt ps i).status = Status.exited c →
      hasErrorLog (save_pages out fmt ps i).trace = true := by
  induction ps with
  | nil => intro i c h; simp [save_pages] at h
  | cons p rest ih =>
    intro i c h
    by_cases hj : pyLower fmt = "jpeg"
    · simp [save_pages, hj, hasErrorLog, Event.isErrLog]
    · cases hse : p.saveError with
      | some e => simp [save_pages, hj, hse] at h
      | none =>
        simp only [save_pages, hj, if_false, hse] at h ⊢
        have := ih (i + 1) c h
        simp [hasErrorLog, Event.isErrLog] at this ⊢
        exact this

theorem save_pages_all_ok (out fmt : String) (hj : ¬ pyLower fmt = "jpeg") (ps : List Page) :
    ∀ i, (∀ p ∈ ps, p.saveError = none) →
      (save_pages out fmt ps i).status = Status.ok ∧
      (save_pages out fmt ps i).writes.map Prod.fst = pageNamesFrom out fmt ps.length i ∧
      hasErrorLog (save_pages out fmt ps i).trace = false := by
  induction ps with
  | nil => intro i h; simp [save_pages, pageNamesFrom, hasErrorLog]
  | cons p rest ih =>
    intro i h
    have hp : p.saveError = none := h p (List.mem_cons_self p rest)
    have hr := ih (i + 1) (fun q hq => h q (List.mem_cons_of_mem p hq))
    simp [save_pages, hj, hp, pageNamesFrom, hr.1, hr.2.1, hasErrorLog, Event.isErrLog]
    have := hr.2.2
    simp [hasErrorLog] at this
    exact this

theorem save_pages_jpeg_noSave (out fmt : String) (hj : pyLower fmt = "jpeg") (ps : List Page)
    (i : Nat) :
    hasSave (save_pages out fmt ps i).trace = false ∧ (save_pages out fmt ps i).writes = [] := by
  cases ps with
  | nil => simp [save_pages, hasSave]
  | cons p rest => simp [save_pages_cons_jpeg out fmt p rest i hj, hasSave, Event.isSave]

theorem dep_no_save (w : World) (pp : Option String) :
    hasSave (check_dependencies w pp).1 = false ∧
      countRasterize (check_dependencies w pp).1 = 0 := by
  cases hpi : w.pdf2imageInstalled <;> cases pp <;>
    simp [check_dependencies, hpi, hasSave, countRasterize, Event.isSave, Event.isRasterize] <;>
    split <;> simp [Event.isSave, Event.isRasterize]

theorem perm_no_save (w : World) (pdf out : String) :
    hasSave (check_file_permissions w pdf out).1 = false ∧
      countRasterize (check_file_permissions w pdf out).1 = 0 := by
  cases h1 : w.isFile pdf <;> cases h2 : w.readable pdf <;> cases h3 : w.isDir out <;>
    cases h4 : w.makedirsOk out <;> cases h5 : w.writable out <;>
    simp [check_file_permissions, h1, h2, h3, h4, h5, hasSave, countSaves, countRasterize,
      Event.isSave, Event.isRasterize]

theorem dep_fail_log (w : World) (pp : Option String)
    (h : (check_dependencies w pp).2 ≠ Status.ok) :
    hasErrorLog (check_dependencies w pp).1 = true ∧
      (check_dependencies w pp).2 = Status.exited 1 := by
  cases hpi : w.pdf2imageInstalled <;> cases pp <;>
    simp_all [check_dependencies, hpi, hasErrorLog, Event.isErrLog] <;>
    split at h <;> simp_all [Event.isErrLog]

theorem perm_fail_log (w : World) (pdf out : String)
    (h : (check_file_permissions w pdf out).2 ≠ Status.ok) :
    hasErrorLog (check_file_permissions w pdf out).1 = true ∧
      (check_file_permissions w pdf out).2 = Status.exited 1 := by
  cases h1 : w.isFile pdf <;> cases h2 : w.readable pdf <;> cases h3 : w.isDir out <;>
    cases h4 : w.makedirsOk out <;> cases h5 : w.writable out <;>
    simp_all [check_file_permissions, hasErrorLog, Event.isErrLog]

theorem conv_checkEvents (w : World) (pdf out : String) (dpi : Nat) (fmt : String)
    (pp : Option String) :
    checkEvents (convert_pdf_to_images w pdf out dpi fmt pp).trace = [] := by
  unfold convert_pdf_to_images
  cases hpi : w.pdf2imageInstalled
  · simp [checkEvents]
  · cases hc : w.convert_from_path pdf dpi fmt pp with
    | error e => simp [hc, checkEvents, Event.isCheck]
    | ok pages =>
      have hloop := save_pages_checkEvents out fmt pages 1
      simp [checkEvents] at hloop
      cases hst : (save_pages out fmt pages 1).status <;>
        simp [hc, hst, checkEvents, Event.isCheck] <;>
        exact fun a ha => hloop a ha

theorem conv_hasRasterize (w : World) (pdf out : String) (dpi : Nat) (fmt : String)
    (pp : Option String) :
    hasRasterize (convert_pdf_to_images w pdf out dpi fmt pp).trace = w.pdf2imageInstalled := by
  unfold convert_pdf_to_images
  cases hpi : w.pdf2imageInstalled
  · simp [hasRasterize]
  · cases hc : w.convert_from_path pdf dpi fmt pp with
    | error e => simp [hc, hasRasterize, Event.isRasterize]
    | ok pages =>
      cases hst : (save_pages out fmt pages 1).status <;>
        simp [hc, hst, hasRasterize, Event.isRasterize]

theorem conv_countRasterize (w : World) (pdf out : String) (dpi : Nat) (fmt : String)
    (pp : Option String) :
    countRasterize (convert_pdf_to_images w pdf out dpi fmt pp).trace ≤ 1 := by
  unfold convert_pdf_to_images
  cases hpi : w.pdf2imageInstalled
  · simp [countRasterize]
  · cases hc : w.convert_from_path pdf dpi fmt pp with
    | error e => simp [hc, countRasterize, Event.isRasterize]
    | ok pages =>
      have hloop := save_pages_countRasterize out fmt pages 1
      simp [countRasterize] at hloop
      cases hst : (save_pages out fmt pages 1).status <;>
        simp [hc, hst, countRasterize, Event.isRasterize] <;>
        exact fun a ha => hloop a ha

theorem conv_exit_log (w : World) (pdf out : String) (dpi : Nat) (fmt : String)
    (pp : Option String) (c : Nat)
    (h : (convert_pdf_to_images w pdf out dpi fmt pp).status = Status.exited c) :
    hasErrorLog (convert_pdf_to_images w pdf out dpi fmt pp).trace = true := by
  unfold convert_pdf_to_images at h ⊢
  cases hpi : w.pdf2imageInstalled
  · simp [hpi] at h
  · cases hc : w.convert_from_path pdf dpi fmt pp with
    | error e => simp [hpi, hc] at h
    | ok pages =>
      cases hst : (save_pages out fmt pages 1).status with
      | ok => simp [hpi, hc, hst] at h
      | exited c2 =>
        have hlog := save_pages_exited_log out fmt pages 1 c2 hst
        simp [hasErrorLog] at hlog
        simp [hpi, hc, hst, hasErrorLog, Event.isErrLog]
        exact hlog
      | raised e => simp [hpi, hc, hst] at h

theorem conv_hasSave_jpeg (w : World) (pdf out : String) (dpi : Nat) (fmt : String)
    (pp : Option String) (hj : pyLower fmt = "jpeg") :
    hasSave (convert_pdf_to_images w pdf out dpi fmt pp).trace = false ∧
      (convert_pdf_to_images w pdf out dpi fmt pp).writes = [] := by
  unfold convert_pdf_to_images
  cases hpi : w.pdf2imageInstalled
  · simp [hasSave]
  · cases hc : w.convert_from_path pdf dpi fmt pp with
    | error e => simp [hc, hasSave, Event.isSave]
    | ok pages =>
      have hloop := save_pages_jpeg_noSave out fmt hj pages 1
      have h1 := hloop.1
      simp [hasSave] at h1
      cases hst : (save_pages out fmt pages 1).status <;>
        simp [hc, hst, hasSave, Event.isSave, hloop.2] <;>
        exact fun a ha => h1 a ha

theorem applyWrites_untouched (ws : List (String × Nat)) (p : String)
    (h : (ws.all fun pr => pr.1 != p) = true) : ∀ d : Disk, applyWrites ws d p = d p := by
  induction ws with
  | nil => intro d; rfl
  | cons pr rest ih =>
    intro d
    simp only [List.all_cons, Bool.and_eq_true, bne_iff_ne, ne_eq] at h
    have h1 : ¬ p = pr.1 := fun he => h.1 he.symm
    rw [applyWrites, ih h.2]
    simp [h1]

theorem applyWrites_pointwise (ws : List (String × Nat)) (p : String) :
    (∀ d : Disk, applyWrites ws d p = d p) ∨ (∃ c, ∀ d : Disk, applyWrites ws d p = some c) := by
  induction ws with
  | nil => exact Or.inl fun d => rfl
  | cons pr rest ih =>
    rcases ih with h | ⟨c, hc⟩
    · by_cases hp : p = pr.1
      · refine Or.inr ⟨pr.2, fun d => ?_⟩
        rw [applyWrites, h]
        simp [hp]
      · refine Or.inl fun d => ?_
        rw [applyWrites, h]
        simp [hp]
    · exact Or.inr ⟨c, fun d => by rw [applyWrites]; exact hc _⟩

theorem applyWrites_idem (ws : List (String × Nat)) (d : Disk) :
    applyWrites ws (applyWrites ws d) = applyWrites ws d := by
  funext p
  rcases applyWrites_pointwise ws p with h | ⟨c, hc⟩
  · rw [h]
  · rw [hc, hc]

theorem hasSave_append (s t : List Event) : hasSave (s ++ t) = (hasSave s || hasSave t) := by
  simp [hasSave]

theorem hasErrorLog_append (s t : List Event) :
    hasErrorLog (s ++ t) = (hasErrorLog s || hasErrorLog t) := by
  simp [hasErrorLog]

theorem hasRasterize_append (s t : List Event) :
    hasRasterize (s ++ t) = (hasRasterize s || hasRasterize t) := by
  simp [hasRasterize]

theorem countSaves_append (s t : List Event) :
    countSaves (s ++ t) = countSaves s + countSaves t := by
  simp [countSaves]

theorem countRasterize_append (s t : List Event) :
    countRasterize (s ++ t) = countRasterize s + countRasterize t := by
  simp [countRasterize]

theorem checkEvents_append (s t : List Event) :
    checkEvents (s ++ t) = checkEvents s ++ checkEvents t := by
  simp [checkEvents]

theorem depTrace_flags (pp : Option String) :
    hasSave (depTrace pp) = false ∧ hasErrorLog (depTrace pp) = false ∧
      hasRasterize (depTrace pp) = false ∧ countSaves (depTrace pp) = 0 ∧
      countRasterize (depTrace pp) = 0 ∧ checkEvents (depTrace pp) = depTrace pp := by
  cases pp <;> simp [depTrace, hasSave, hasErrorLog, hasRasterize, countSaves, countRasterize,
    checkEvents, Event.isSave, Event.isErrLog, Event.isRasterize, Event.isCheck]

theorem permTrace_flags (w : World) (pdf out : String) :
    hasSave (permTrace w pdf out) = false ∧ hasErrorLog (permTrace w pdf out) = false ∧
      hasRasterize (permTrace w pdf out) = false ∧ countSaves (permTrace w pdf out) = 0 ∧
      countRasterize (permTrace w pdf out) = 0 ∧
      checkEvents (permTrace w pdf out) = permTrace w pdf out := by
  cases h : w.isDir out <;> simp [permTrace, h, hasSave, hasErrorLog, hasRasterize, countSaves,
    countRasterize, checkEvents, Event.isSave, Event.isErrLog, Event.isRasterize, Event.isCheck]

theorem stdoutTrace_flags (a : Args) :
    hasSave (stdoutTrace a) = false ∧ hasErrorLog (stdoutTrace a) = false ∧
      hasRasterize (stdoutTrace a) = false ∧ countSaves (stdoutTrace a) = 0 ∧
      countRasterize (stdoutTrace a) = 0 ∧ checkEvents (stdoutTrace a) = [] := by
  simp [stdoutTrace, hasSave, hasErrorLog, hasRasterize, countSaves, countRasterize,
    checkEvents, Event.isSave, Event.isErrLog, Event.isRasterize, Event.isCheck]

theorem dep_flags (w : World) (pp : Option String) :
    hasSave (check_dependencies w pp).1 = false ∧
      hasRasterize (check_dependencies w pp).1 = false ∧
      countSaves (check_dependencies w pp).1 = 0 ∧
      countRasterize (check_dependencies w pp).1 = 0 := by
  cases hpi : w.pdf2imageInstalled <;> cases pp <;>
    simp [check_dependencies, hpi, hasSave, hasRasterize, countSaves, countRasterize,
      Event.isSave, Event.isRasterize] <;>
    split <;> simp [Event.isSave, Event.isRasterize]

theorem perm_flags (w : World) (pdf out : String) :
    hasSave (check_file_permissions w pdf out).1 = false ∧
      hasRasterize (check_file_permissions w pdf out).1 = false ∧
      countSaves (check_file_permissions w pdf out).1 = 0 ∧
      countRasterize (check_file_permissions w pdf out).1 = 0 := by
  cases h1 : w.isFile pdf <;> cases h2 : w.readable pdf <;> cases h3 : w.isDir out <;>
    cases h4 : w.makedirsOk out <;> cases h5 : w.writable out <;>
    simp [check_file_permissions, h1, h2, h3, h4, h5, hasSave, hasRasterize, countSaves,
      countRasterize, Event.isSave, Event.isRasterize]

theorem dep_ok_inv (w : World) (pp : Option String)
    (h : (check_dependencies w pp).2 = Status.ok) :
    w.pdf2imageInstalled = true ∧ popplerFound w pp = true := by
  cases hpi : w.pdf2imageInstalled
  · simp [check_dependencies, hpi] at h
  · refine ⟨rfl, ?_⟩
    cases pp with
    | none =>
      cases hw : w.whichPdftoppm
      · simp [check_dependencies, hpi, hw] at h
      · simp [popplerFound, hw]
    | some pp =>
      cases hw : w.isFile (pp ++ "/pdftoppm")
      · simp [check_dependencies, hpi, hw] at h
      · simp [popplerFound, hw]

theorem perm_ok_inv (w : World) (pdf out : String)
    (h : (check_file_permissions w pdf out).2 = Status.ok) :
    w.isFile pdf = true ∧ w.readable pdf = true ∧ dirOk w out = true := by
  cases h1 : w.isFile pdf <;> cases h2 : w.readable pdf <;> cases h3 : w.isDir out <;>
    cases h4 : w.makedirsOk out <;> cases h5 : w.writable out <;>
    simp_all [check_file_permissions, dirOk]

theorem main_fail (w : World) (a : Args) (h : preOk w a = false) :
    (runProcess w a).exitCode = 1 ∧ hasErrorLog (runProcess w a).trace = true ∧
      (runProcess w a).writes = [] ∧ hasRasterize (runProcess w a).trace = false ∧
      hasSave (runProcess w a).trace = false := by
  rcases hd : check_dependencies w a.poppler_path with ⟨dt, ds⟩
  have hdf := dep_flags w a.poppler_path
  rw [hd] at hdf
  simp only [] at hdf
  by_cases hds : ds = Status.ok
  · subst hds
    have hdep := dep_ok_inv w a.poppler_path (by rw [hd])
    rcases hp : check_file_permissions w a.pdf_file a.output_dir with ⟨pt, psx⟩
    have hpf := perm_flags w a.pdf_file a.output_dir
    rw [hp] at hpf
    dsimp only at hpf
    by_cases hps : psx = Status.ok
    · subst hps
      have hperm := perm_ok_inv w a.pdf_file a.output_dir (by rw [hp])
      exfalso
      rw [preOk, hdep.1, hdep.2, hperm.1, hperm.2.1, hperm.2.2] at h
      simp at h
    · have hfl := perm_fail_log w a.pdf_file a.output_dir (by rw [hp]; exact hps)
      rw [hp] at hfl
      dsimp only at hfl
      obtain ⟨hflog, hfst⟩ := hfl
      subst hfst
      have hmain : main w a = ⟨dt ++ pt, [], Status.exited 1⟩ := by
        simp [main, hd, hp]
      have hr := runProcess_trace_of_exited w a 1 (by rw [hmain])
      rw [hr.1, hmain]
      refine ⟨hr.2.1, ?_, by rw [hr.2.2, hmain], ?_, ?_⟩ <;>
        simp [hasErrorLog_append, hasRasterize_append, hasSave_append, hdf.1, hdf.2.1,
          hpf.1, hpf.2.1, hflog]
  · have hfl := dep_fail_log w a.poppler_path (by rw [hd]; exact hds)
    rw [hd] at hfl
    dsimp only at hfl
    obtain ⟨hflog, hfst⟩ := hfl
    subst hfst
    have hmain : main w a = ⟨dt, [], Status.exited 1⟩ := by
      simp [main, hd]
    have hr := runProcess_trace_of_exited w a 1 (by rw [hmain])
    rw [hr.1, hmain]
    exact ⟨hr.2.1, hflog, by rw [hr.2.2, hmain], hdf.2.1, hdf.1⟩

theorem savesAfterMkdir_of_noSave (dir : String) :
    ∀ t : List Event, hasSave t = false → savesAfterMkdir dir t = true := by
  intro t
  induction t with
  | nil => intro _; rfl
  | cons e rest ih =>
    intro h
    rw [hasSave, List.any_cons, Bool.or_eq_false_iff] at h
    obtain ⟨he, hrest⟩ := h
    cases e with
    | saveFile f => simp [Event.isSave] at he
    | mkdirCall d =>
      by_cases hd : d = dir
      · simp [savesAfterMkdir, hd]
      · simp [savesAfterMkdir, hd]
        exact ih hrest
    | _ =>
      simp [savesAfterMkdir]
      exact ih hrest

theorem pageNamesFrom_length (out fmt : String) :
    ∀ n i, (pageNamesFrom out fmt n i).length = n := by
  intro n
  induction n with
  | zero => intro i; rfl
  | succ n ih => intro i; simp [pageNamesFrom, ih]

theorem stdout_noSave (a : Args) : hasSave (stdoutTrace a) = false := by
  simp [stdoutTrace, hasSave, Event.isSave]

/-- Claim C5: the jpeg rejection is evaluated in each loop iteration before
the save call of that same iteration, so whenever a page save executes the
requested format does not lowercase to jpeg: no run trace contains a
saveFile event when the format is jpeg. -/
theorem claimC5 (w : World) (a : Args) (f : String)
    (h : Event.saveFile f ∈ (main w a).trace) : ¬ pyLower a.fmt = "jpeg" := by
  intro hj
  have hns : hasSave (main w a).trace = false := by
    rcases hd : check_dependencies w a.poppler_path with ⟨dt, ds⟩
    rcases hp : check_file_permissions w a.pdf_file a.output_dir with ⟨pt, psx⟩
    have hdt := (dep_flags w a.poppler_path).1
    rw [hd] at hdt
    dsimp only at hdt
    have hpt := (perm_flags w a.pdf_file a.output_dir).1
    rw [hp] at hpt
    dsimp only at hpt
    have hconv := (conv_hasSave_jpeg w a.pdf_file a.output_dir a.dpi a.fmt a.poppler_path hj).1
    cases ds <;> cases psx <;>
      simp [main, hd, hp, hasSave_append, hdt, hpt, hconv, stdout_noSave]
  have hyes : hasSave (main w a).trace = true := List.any_eq_true.mpr ⟨_, h, rfl⟩
  rw [hns] at hyes
  exact Bool.false_ne_true hyes

/-- Witness for claim C5: in the two-page png run a page save executes, and
the format is indeed not jpeg. -/
theorem claimC5_witness :
    Event.saveFile "out/page_1.png" ∈ (main wTwoPages aPng).trace ∧
      ¬ pyLower aPng.fmt = "jpeg" :=
  ⟨by decide, claimC5 wTwoPages aPng "out/page_1.png" (by decide)⟩

/-- Claim C9: a run whose rasterization call returns an empty page sequence
never executes the loop body: it logs the completion message and exits 0
with no file written and no error logged, whatever the format is —
including jpeg, whose rejection check is never reached. -/
theorem claimC9 (w : World) (a : Args)
    (hpre : preOk w a = true)
    (hconv : w.convert_from_path a.pdf_file a.dpi a.fmt a.poppler_path = Except.ok []) :
    (runProcess w a).exitCode = 0 ∧ (runProcess w a).writes = [] ∧
      countSaves (runProcess w a).trace = 0 ∧
      hasErrorLog (runProcess w a).trace = false ∧
      Event.logInfo msgComplete ∈ (runProcess w a).trace := by
  have hinst : w.pdf2imageInstalled = true := by
    simp only [preOk, Bool.and_eq_true] at hpre
    exact hpre.1.1.1.1
  have hpre2 : preOk w a = true := by
    simp only [preOk, Bool.and_eq_true]
    simp only [preOk, Bool.and_eq_true] at hpre
    exact hpre
  have hcv : convert_pdf_to_images w a.pdf_file a.output_dir a.dpi a.fmt a.poppler_path =
      ⟨[Event.logInfo (msgConverting a.pdf_file),
        Event.rasterizeCall a.pdf_file a.dpi a.fmt a.poppler_path,
        Event.logInfo msgComplete], [], Status.ok⟩ := by
    simp [convert_pdf_to_images, hinst, hconv, save_pages]
  have hmain := main_eq_of_preOk w a hpre2
  rw [hcv] at hmain
  have hst : (main w a).status = Status.ok := by rw [hmain]
  have hr := runProcess_trace_of_ok w a hst
  have hdt := depTrace_flags a.poppler_path
  have hpt := permTrace_flags w a.pdf_file a.output_dir
  have hso := stdoutTrace_flags a
  refine ⟨hr.2.1, by rw [hr.2.2, hmain], ?_, ?_, ?_⟩
  · rw [hr.1, hmain]
    dsimp only
    simp only [countSaves_append]
    rw [hdt.2.2.2.1, hpt.2.2.2.1, hso.2.2.2.1]
    rfl
  · rw [hr.1, hmain]
    dsimp only
    simp only [hasErrorLog_append]
    rw [hdt.2.1, hpt.2.1, hso.2.1]
    rfl
  · rw [hr.1, hmain]
    simp

/-- Witness for claim C9: the zero-page run with format jpeg exits 0,
writes nothing and logs no error. -/
theorem claimC9_witness :
    (runProcess wZeroPages aJpeg).exitCode = 0 ∧ (runProcess wZeroPages aJpeg).writes = [] ∧
      countSaves (runProcess wZeroPages aJpeg).trace = 0 ∧
      hasErrorLog (runProcess wZeroPages aJpeg).trace = false ∧
      Event.logInfo msgComplete ∈ (runProcess wZeroPages aJpeg).trace :=
  claimC9 wZeroPages aJpeg (by decide) rfl

/-- Claim C2: a run with a non-rejected format whose rasterization returns
N pages, all of which encode successfully, writes exactly N files named
page_1.fmt through page_N.fmt — 1-indexed, no zero-padding — and exits 0
after logging the completion message. -/
theorem claimC2 (w : World) (a : Args) (pages : List Page)
    (hpre : preOk w a = true)
    (hconv : w.convert_from_path a.pdf_file a.dpi a.fmt a.poppler_path = Except.ok pages)
    (hsave : ∀ p ∈ pages, p.saveError = none)
    (hfmt : ¬ pyLower a.fmt = "jpeg") :
    (runProcess w a).exitCode = 0 ∧
      (runProcess w a).writes.length = pages.length ∧
      (runProcess w a).writes.map Prod.fst = pageNames a.output_dir a.fmt pages.length ∧
      Event.logInfo msgComplete ∈ (runProcess w a).trace := by
  have hinst : w.pdf2imageInstalled = true := by
    simp only [preOk, Bool.and_eq_true] at hpre
    exact hpre.1.1.1.1
  have hpre2 : preOk w a = true := by
    simp only [preOk, Bool.and_eq_true]
    simp only [preOk, Bool.and_eq_true] at hpre
    exact hpre
  have hloop := save_pages_all_ok a.output_dir a.fmt hfmt pages 1 hsave
  have hcv : convert_pdf_to_images w a.pdf_file a.output_dir a.dpi a.fmt a.poppler_path =
      ⟨([Event.logInfo (msgConverting a.pdf_file),
         Event.rasterizeCall a.pdf_file a.dpi a.fmt a.poppler_path] ++
          (save_pages a.output_dir a.fmt pages 1).trace) ++ [Event.logInfo msgComplete],
       (save_pages a.output_dir a.fmt pages 1).writes, Status.ok⟩ := by
    simp [convert_pdf_to_images, hinst, hconv, hloop.1]
  have hmain := main_eq_of_preOk w a hpre2
  rw [hcv] at hmain
  have hst : (main w a).status = Status.ok := by rw [hmain]
  have hr := runProcess_trace_of_ok w a hst
  refine ⟨hr.2.1, ?_, ?_, ?_⟩
  · rw [hr.2.2, hmain]
    dsimp only
    rw [show (save_pages a.output_dir a.fmt pages 1).writes.length =
          ((save_pages a.output_dir a.fmt pages 1).writes.map Prod.fst).length from
        (List.length_map _ _).symm,
      hloop.2.1, pageNamesFrom_length]
  · rw [hr.2.2, hmain]
    dsimp only
    rw [hloop.2.1]
    rfl
  · rw [hr.1, hmain]
    simp

/-- Witness for claim C2: the two-page png scenario writes out/page_1.png
and out/page_2.png and exits 0. -/
theorem claimC2_witness :
    (runProcess wTwoPages aPng).exitCode = 0 ∧
      (runProcess wTwoPages aPng).writes.length = 2 ∧
      (runProcess wTwoPages aPng).writes.map Prod.fst = pageNames "out" "png" 2 ∧
      Event.logInfo msgComplete ∈ (runProcess wTwoPages aPng).trace := by
  have h := claimC2 wTwoPages aPng [⟨10, none⟩, ⟨20, none⟩] (by decide) rfl
    (by decide) (by decide)
  exact ⟨h.1, h.2.1, h.2.2.1, h.2.2.2⟩

/-- Counterexample to claim C1 as stated: the claim quantifies over any
page count, but in a run with format jpeg whose rasterization returns zero
pages, every precondition passes and the process exits 0 with no error
logged, not 1 with the UnsupportedFormat error. -/
theorem claimC1_counterexample :
    aJpeg.fmt = "jpeg" ∧ preOk wZeroPages aJpeg = true ∧
      (runProcess wZeroPages aJpeg).exitCode = 0 ∧
      ¬ (runProcess wZeroPages aJpeg).exitCode = 1 ∧
      hasErrorLog (runProcess wZeroPages aJpeg).trace = false ∧
      (runProcess wZeroPages aJpeg).writes = [] := by
  refine ⟨rfl, by decide, ?_, ?_, ?_, ?_⟩ <;> decide

/-- Claim C1 as amended: for every run with format jpeg that passes the
precondition checks and whose rasterization returns at least one page, the
orchestrator exits with code 1, logs the rejection error, and writes zero
page files to the output directory. -/
theorem claimC1_amended (w : World) (a : Args) (p : Page) (ps : List Page)
    (hpre : preOk w a = true)
    (hconv : w.convert_from_path a.pdf_file a.dpi a.fmt a.poppler_path = Except.ok (p :: ps))
    (hfmt : a.fmt = "jpeg") :
    (runProcess w a).exitCode = 1 ∧ hasErrorLog (runProcess w a).trace = true ∧
      (runProcess w a).writes = [] ∧ countSaves (runProcess w a).trace = 0 := by
  have hinst : w.pdf2imageInstalled = true := by
    simp only [preOk, Bool.and_eq_true] at hpre
    exact hpre.1.1.1.1
  have hpre2 : preOk w a = true := by
    simp only [preOk, Bool.and_eq_true]
    simp only [preOk, Bool.and_eq_true] at hpre
    exact hpre
  have hj : pyLower a.fmt = "jpeg" := by rw [hfmt]; decide
  have hloop := save_pages_cons_jpeg a.output_dir a.fmt p ps 1 hj
  have hcv : convert_pdf_to_images w a.pdf_file a.output_dir a.dpi a.fmt a.poppler_path =
      ⟨[Event.logInfo (msgConverting a.pdf_file),
        Event.rasterizeCall a.pdf_file a.dpi a.fmt a.poppler_path,
        Event.stdout (a.output_dir ++ "/page_" ++ toString 1 ++ "." ++ a.fmt),
        Event.logError msgJpeg], [], Status.exited 1⟩ := by
    simp [convert_pdf_to_images, hinst, hconv, hloop]
  have hmain := main_eq_of_preOk w a hpre2
  rw [hcv] at hmain
  have hst : (main w a).status = Status.exited 1 := by rw [hmain]
  have hr := runProcess_trace_of_exited w a 1 hst
  have hdt := depTrace_flags a.poppler_path
  have hpt := permTrace_flags w a.pdf_file a.output_dir
  have hso := stdoutTrace_flags a
  refine ⟨hr.2.1, ?_, by rw [hr.2.2, hmain], ?_⟩
  · rw [hr.1, hmain]
    dsimp only
    simp only [hasErrorLog_append]
    rw [hdt.2.1, hpt.2.1, hso.2.1]
    rfl
  · rw [hr.1, hmain]
    dsimp only
    simp only [countSaves_append]
    rw [hdt.2.2.2.1, hpt.2.2.2.1, hso.2.2.2.1]
    rfl

/-- Witness for the amended claim C1: the one-page jpeg run exits 1, logs
the rejection error and writes nothing. -/
theorem claimC1_witness :
    (runProcess wOnePage aJpeg).exitCode = 1 ∧
      hasErrorLog (runProcess wOnePage aJpeg).trace = true ∧
      (runProcess wOnePage aJpeg).writes = [] := by
  have h := claimC1_amended wOnePage aJpeg ⟨7, none⟩ [] (by decide) rfl rfl
  exact ⟨h.1, h.2.1, h.2.2.1⟩

/-- Claim C6: a run whose source path does not exist or is not readable
(with the dependency checks passing) logs an error and exits with code 1
before any rasterization call is attempted, writing nothing. -/
theorem claimC6 (w : World) (a : Args)
    (h1 : w.pdf2imageInstalled = true) (h2 : popplerFound w a.poppler_path = true)
    (h3 : w.isFile a.pdf_file = false ∨ w.readable a.pdf_file = false) :
    (runProcess w a).exitCode = 1 ∧ hasErrorLog (runProcess w a).trace = true ∧
      hasRasterize (runProcess w a).trace = false ∧ (runProcess w a).writes = [] := by
  have hdep := dep_eq_ok w a.poppler_path h1 h2
  have hdt := depTrace_flags a.poppler_path
  have hshape : ∃ tail : List Event,
      check_file_permissions w a.pdf_file a.output_dir =
        (Event.checkIsFile a.pdf_file :: tail, Status.exited 1) ∧
      hasErrorLog tail = true ∧ hasRasterize tail = false ∧ hasSave tail = false := by
    rcases h3 with h3 | h3
    · refine ⟨[Event.logError (msgPdfMissing a.pdf_file)], ?_, ?_, ?_, ?_⟩ <;>
        simp [check_file_permissions, h3, hasErrorLog, hasRasterize, hasSave,
          Event.isErrLog, Event.isRasterize, Event.isSave]
    · cases h4 : w.isFile a.pdf_file
      · refine ⟨[Event.logError (msgPdfMissing a.pdf_file)], ?_, ?_, ?_, ?_⟩ <;>
          simp [check_file_permissions, h4, hasErrorLog, hasRasterize, hasSave,
            Event.isErrLog, Event.isRasterize, Event.isSave]
      · refine ⟨[Event.checkReadable a.pdf_file, Event.logError (msgPdfUnreadable a.pdf_file)],
          ?_, ?_, ?_, ?_⟩ <;>
          simp [check_file_permissions, h3, h4, hasErrorLog, hasRasterize, hasSave,
            Event.isErrLog, Event.isRasterize, Event.isSave]
  obtain ⟨tail, hperm, htlog, htras, _⟩ := hshape
  have hmain : main w a =
      ⟨depTrace a.poppler_path ++ (Event.checkIsFile a.pdf_file :: tail), [],
        Status.exited 1⟩ := by
    simp [main, hdep, hperm]
  have hr := runProcess_trace_of_exited w a 1 (by rw [hmain])
  refine ⟨hr.2.1, ?_, ?_, by rw [hr.2.2, hmain]⟩
  · rw [hr.1, hmain]
    dsimp only
    simp only [hasErrorLog_append]
    rw [hdt.2.1]
    simp [hasErrorLog, Event.isErrLog] at htlog ⊢
    exact htlog
  · rw [hr.1, hmain]
    dsimp only
    simp only [hasRasterize_append]
    rw [hdt.2.2.1]
    simp [hasRasterize, Event.isRasterize] at htras ⊢
    exact htras

/-- Witness for claim C6: with input.pdf absent the run exits 1 with an
error logged and never calls the rasterizer. -/
theorem claimC6_witness :
    (runProcess wNoPdf aPng).exitCode = 1 ∧
      hasErrorLog (runProcess wNoPdf aPng).trace = true ∧
      hasRasterize (runProcess wNoPdf aPng).trace = false ∧
      (runProcess wNoPdf aPng).writes = [] :=
  claimC6 wNoPdf aPng (by decide) (by decide) (Or.inl (by decide))

/-- Claim C8: running the orchestrator twice with identical inputs produces
identical output files. The run is a pure function of the world and the
arguments, so the second run performs the same write list; replaying that
list overwrites each page file in place (disk after two runs equals disk
after one), and every path the run does not write keeps its old content, so
no stale file accumulates. -/
theorem claimC8 (w : World) (a : Args) (d : Disk) :
    applyWrites (main w a).writes (applyWrites (main w a).writes d) =
      applyWrites (main w a).writes d ∧
    ∀ p : String, ((main w a).writes.all fun pr => pr.1 != p) = true →
      applyWrites (main w a).writes d p = d p :=
  ⟨applyWrites_idem (main w a).writes d,
   fun p hp => applyWrites_untouched (main w a).writes p hp d⟩

/-- Witness for claim C8: replaying the two-page run on the empty disk
changes nothing, and a path the run never writes keeps its old content. -/
theorem claimC8_witness :
    applyWrites (main wTwoPages aPng).writes
        (applyWrites (main wTwoPages aPng).writes emptyDisk) =
      applyWrites (main wTwoPages aPng).writes emptyDisk ∧
    applyWrites (main wTwoPages aPng).writes emptyDisk "out/stale.txt" =
      emptyDisk "out/stale.txt" := by
  have h := claimC8 wTwoPages aPng emptyDisk
  exact ⟨h.1, h.2 "out/stale.txt" (by decide)⟩

/-- Claim C10: the rejection compares the lowercased format to the literal
jpeg. Whenever the preconditions pass and at least one page comes back,
a format lowercasing to jpeg (so jpeg in any casing, like JPEG or Jpeg)
exits 1 with the error logged and no save, while any other spelling —
jpg in particular — is passed through to the per-page save call and the
run exits 0. -/
theorem claimC10 (w : World) (a : Args) (p : Page) (ps : List Page)
    (hpre : preOk w a = true)
    (hconv : w.convert_from_path a.pdf_file a.dpi a.fmt a.poppler_path = Except.ok (p :: ps))
    (hsave : ∀ q ∈ p :: ps, q.saveError = none) :
    (runProcess w a).exitCode = (if pyLower a.fmt = "jpeg" then 1 else 0) ∧
      hasSave (runProcess w a).trace = (if pyLower a.fmt = "jpeg" then false else true) ∧
      hasErrorLog (runProcess w a).trace = (if pyLower a.fmt = "jpeg" then true else false) := by
  have hinst : w.pdf2imageInstalled = true := by
    simp only [preOk, Bool.and_eq_true] at hpre
    exact hpre.1.1.1.1
  have hpre2 : preOk w a = true := by
    simp only [preOk, Bool.and_eq_true]
    simp only [preOk, Bool.and_eq_true] at hpre
    exact hpre
  have hdt := depTrace_flags a.poppler_path
  have hpt := permTrace_flags w a.pdf_file a.output_dir
  have hso := stdoutTrace_flags a
  have hmain := main_eq_of_preOk w a hpre2
  by_cases hj : pyLower a.fmt = "jpeg"
  · have hloop := save_pages_cons_jpeg a.output_dir a.fmt p ps 1 hj
    have hcv : convert_pdf_to_images w a.pdf_file a.output_dir a.dpi a.fmt a.poppler_path =
        ⟨[Event.logInfo (msgConverting a.pdf_file),
          Event.rasterizeCall a.pdf_file a.dpi a.fmt a.poppler_path,
          Event.stdout (a.output_dir ++ "/page_" ++ toString 1 ++ "." ++ a.fmt),
          Event.logError msgJpeg], [], Status.exited 1⟩ := by
      simp [convert_pdf_to_images, hinst, hconv, hloop]
    rw [hcv] at hmain
    have hst : (main w a).status = Status.exited 1 := by rw [hmain]
    have hr := runProcess_trace_of_exited w a 1 hst
    rw [if_pos hj, if_pos hj, if_pos hj]
    refine ⟨hr.2.1, ?_, ?_⟩
    · rw [hr.1, hmain]
      dsimp only
      simp only [hasSave_append]
      rw [hdt.1, hpt.1, hso.1]
      rfl
    · rw [hr.1, hmain]
      dsimp only
      simp only [hasErrorLog_append]
      rw [hdt.2.1, hpt.2.1, hso.2.1]
      rfl
  · have hp1 : p.saveError = none := hsave p (List.mem_cons_self p ps)
    have hrest : ∀ q ∈ ps, q.saveError = none :=
      fun q hq => hsave q (List.mem_cons_of_mem p hq)
    have hloop := save_pages_all_ok a.output_dir a.fmt hj (p :: ps) 1 hsave
    have hone : save_pages a.output_dir a.fmt (p :: ps) 1 =
        ⟨Event.stdout (a.output_dir ++ "/page_" ++ toString 1 ++ "." ++ a.fmt) ::
           Event.saveFile (a.output_dir ++ "/page_" ++ toString 1 ++ "." ++ a.fmt) ::
           Event.logInfo (msgSaved 1 (a.output_dir ++ "/page_" ++ toString 1 ++ "." ++ a.fmt)) ::
           (save_pages a.output_dir a.fmt ps 2).trace,
         (a.output_dir ++ "/page_" ++ toString 1 ++ "." ++ a.fmt, p.content) ::
           (save_pages a.output_dir a.fmt ps 2).writes,
         (save_pages a.output_dir a.fmt ps 2).status⟩ := by
      simp [save_pages, hj, hp1]
    have hcv : convert_pdf_to_images w a.pdf_file a.output_dir a.dpi a.fmt a.poppler_path =
        ⟨([Event.logInfo (msgConverting a.pdf_file),
           Event.rasterizeCall a.pdf_file a.dpi a.fmt a.poppler_path] ++
            (save_pages a.output_dir a.fmt (p :: ps) 1).trace) ++ [Event.logInfo msgComplete],
         (save_pages a.output_dir a.fmt (p :: ps) 1).writes, Status.ok⟩ := by
      simp [convert_pdf_to_images, hinst, hconv, hloop.1]
    rw [hcv] at hmain
    have hst : (main w a).status = Status.ok := by rw [hmain]
    have hr := runProcess_trace_of_ok w a hst
    rw [if_neg hj, if_neg hj, if_neg hj]
    refine ⟨hr.2.1, ?_, ?_⟩
    · rw [hr.1, hmain]
      dsimp only
      simp only [hasSave_append]
      rw [hone]
      dsimp only
      simp [hasSave, Event.isSave]
    · rw [hr.1, hmain]
      dsimp only
      simp only [hasErrorLog_append]
      rw [hdt.2.1, hpt.2.1, hso.2.1]
      have hll := hloop.2.2
      simp only [hasErrorLog] at hll ⊢
      simp [hll, hasErrorLog, Event.isErrLog]

/-- Witness for claim C10: the spelling Jpg lowercases to jpg, is not
rejected, and the two-page run saves pages and exits 0 with no error. -/
theorem claimC10_witness :
    (runProcess wTwoPages aJpg).exitCode = 0 ∧
      hasSave (runProcess wTwoPages aJpg).trace = true ∧
      hasErrorLog (runProcess wTwoPages aJpg).trace = false := by
  have h := claimC10 wTwoPages aJpg ⟨10, none⟩ [⟨20, none⟩] (by decide) rfl (by decide)
  have hne : ¬ pyLower aJpg.fmt = "jpeg" := by decide
  rw [if_neg hne, if_neg hne, if_neg hne] at h
  exact h

/-- Claim C3: every error during a run is handled at the top level by
logging a message and terminating the process — a failing run always has
an error line in its trace, an uncaught exception from the rasterization
or save call (the ConversionFailure kind) ends the process with exit code
1 and the traceback on the error stream — and nothing is recovered or
retried: the rasterization call is made at most once per run. -/
theorem claimC3 (w : World) (a : Args) :
    ((runProcess w a).exitCode ≠ 0 → hasErrorLog (runProcess w a).trace = true) ∧
    (∀ e, (main w a).status = Status.raised e →
      (runProcess w a).exitCode = 1 ∧
        Event.logError (msgTraceback e) ∈ (runProcess w a).trace) ∧
    countRasterize (main w a).trace ≤ 1 := by
  refine ⟨?_, ?_, ?_⟩
  · -- every non-zero exit has an error logged
    by_cases hpre : preOk w a = true
    · have hmain := main_eq_of_preOk w a hpre
      have hdt := depTrace_flags a.poppler_path
      have hpt := permTrace_flags w a.pdf_file a.output_dir
      have hso := stdoutTrace_flags a
      cases hcs : (convert_pdf_to_images w a.pdf_file a.output_dir a.dpi a.fmt
          a.poppler_path).status with
      | ok =>
        have hst : (main w a).status = Status.ok := by rw [hmain]; exact hcs
        have hr := runProcess_trace_of_ok w a hst
        intro h0
        exact absurd hr.2.1 h0
      | exited c =>
        have hst : (main w a).status = Status.exited c := by rw [hmain]; exact hcs
        have hr := runProcess_trace_of_exited w a c hst
        intro _
        have hcl := conv_exit_log w a.pdf_file a.output_dir a.dpi a.fmt a.poppler_path c hcs
        rw [hr.1, hmain]
        dsimp only
        simp only [hasErrorLog_append]
        rw [hdt.2.1, hpt.2.1, hso.2.1, hcl]
        rfl
      | raised e =>
        have hst : (main w a).status = Status.raised e := by rw [hmain]; exact hcs
        have hr := runProcess_trace_of_raised w a e hst
        intro _
        rw [hr.1]
        simp [hasErrorLog_append, hasErrorLog, Event.isErrLog]
    · have hfalse : preOk w a = false := by
        revert hpre
        cases preOk w a <;> simp
      exact fun _ => (main_fail w a hfalse).2.1
  · -- an uncaught exception terminates the process with the traceback logged
    intro e he
    have hr := runProcess_trace_of_raised w a e he
    refine ⟨hr.2.1, ?_⟩
    rw [hr.1]
    simp
  · -- the rasterization call happens at most once
    rcases hd : check_dependencies w a.poppler_path with ⟨dt, ds⟩
    have hdf := dep_flags w a.poppler_path
    rw [hd] at hdf
    dsimp only at hdf
    by_cases hds : ds = Status.ok
    · subst hds
      rcases hp : check_file_permissions w a.pdf_file a.output_dir with ⟨pt, psx⟩
      have hpf := perm_flags w a.pdf_file a.output_dir
      rw [hp] at hpf
      dsimp only at hpf
      by_cases hps : psx = Status.ok
      · subst hps
        have hmt : (main w a).trace = dt ++ pt ++ stdoutTrace a ++
            (convert_pdf_to_images w a.pdf_file a.output_dir a.dpi a.fmt
              a.poppler_path).trace := by
          simp [main, hd, hp]
        rw [hmt]
        simp only [countRasterize_append]
        rw [hdf.2.2.2, hpf.2.2.2, (stdoutTrace_flags a).2.2.2.2.1]
        have hcc := conv_countRasterize w a.pdf_file a.output_dir a.dpi a.fmt a.poppler_path
        omega
      · have hfl := perm_fail_log w a.pdf_file a.output_dir (by rw [hp]; exact hps)
        rw [hp] at hfl
        dsimp only at hfl
        obtain ⟨_, hfst⟩ := hfl
        subst hfst
        have hmt : (main w a).trace = dt ++ pt := by simp [main, hd, hp]
        rw [hmt]
        simp only [countRasterize_append]
        rw [hdf.2.2.2, hpf.2.2.2]
        omega
    · have hfl := dep_fail_log w a.poppler_path (by rw [hd]; exact hds)
      rw [hd] at hfl
      dsimp only at hfl
      obtain ⟨_, hfst⟩ := hfl
      subst hfst
      have hmt : (main w a).trace = dt := by simp [main, hd]
      rw [hmt, hdf.2.2.2]
      omega

/-- Witness for claim C3: a run whose rasterization call raises exits with
code 1, logs the traceback, and called the rasterizer only once. -/
theorem claimC3_witness :
    hasErrorLog (runProcess wRaise aPng).trace = true ∧
      (runProcess wRaise aPng).exitCode = 1 ∧
      Event.logError (msgTraceback "PDFPageCountError") ∈ (runProcess wRaise aPng).trace ∧
      countRasterize (main wRaise aPng).trace ≤ 1 := by
  have h := claimC3 wRaise aPng
  have hp := h.2.1 "PDFPageCountError" (by decide)
  exact ⟨h.1 (by decide), hp.1, hp.2, h.2.2⟩

theorem fatalStop_intro (r : ProcessResult) (h1 : r.exitCode = 1)
    (h2 : hasErrorLog r.trace = true) (h3 : hasRasterize r.trace = false) : fatalStop r :=
  ⟨h1, h2, h3⟩

theorem runProcess_trace_cases (w : World) (a : Args) :
    (runProcess w a).trace = (main w a).trace ∨
      ∃ e, (runProcess w a).trace = (main w a).trace ++ [Event.logError (msgTraceback e)] := by
  cases h : (main w a).status with
  | ok => exact Or.inl (runProcess_trace_of_ok w a h).1
  | exited c => exact Or.inl (runProcess_trace_of_exited w a c h).1
  | raised e => exact Or.inr ⟨e, (runProcess_trace_of_raised w a e h).1⟩

/-- Claim C4: the four precondition checks run in the fixed order
import, toolchain lookup (at the supplied path when given, otherwise on
the search path), source readability, destination
exists-or-created-and-writable; each failing check logs an error and exits
the process with code 1, and no later check and no rasterization call runs
after an earlier check fails; when every check passes, the rasterization
call runs. -/
theorem claimC4 (w : World) (a : Args) : checkPhaseSpec w a (runProcess w a) := by
  obtain ⟨pdf, out, dpi, fmt, pp⟩ := a
  refine ⟨?_, ?_, ?_, ?_, ?_, ?_, ?_⟩
  · -- import check fails
    intro h
    have hdep : check_dependencies w pp =
        ([Event.checkImport, Event.logError msgNoPdf2image], Status.exited 1) := by
      simp [check_dependencies, h]
    have hmain : main w ⟨pdf, out, dpi, fmt, pp⟩ =
        ⟨[Event.checkImport, Event.logError msgNoPdf2image], [], Status.exited 1⟩ := by
      simp [main, hdep]
    have hr := runProcess_trace_of_exited w _ 1 (by rw [hmain])
    have hf := main_fail w ⟨pdf, out, dpi, fmt, pp⟩ (by simp [preOk, h])
    refine ⟨?_, fatalStop_intro _ hf.1 hf.2.1 hf.2.2.2.1⟩
    rw [hr.1, hmain]
    simp [checkEvents, Event.isCheck]
  · -- toolchain lookup fails
    intro h1 h2
    have hf := main_fail w ⟨pdf, out, dpi, fmt, pp⟩ (by simp [preOk, h2])
    cases pp with
    | none =>
      have hw : w.whichPdftoppm = false := by simpa [popplerFound] using h2
      have hdep : check_dependencies w none =
          ([Event.checkImport, Event.checkWhich, Event.logError msgNoPopplerPath],
           Status.exited 1) := by
        simp [check_dependencies, h1, hw]
      have hmain : main w ⟨pdf, out, dpi, fmt, none⟩ =
          ⟨[Event.checkImport, Event.checkWhich, Event.logError msgNoPopplerPath], [],
            Status.exited 1⟩ := by
        simp [main, hdep]
      have hr := runProcess_trace_of_exited w _ 1 (by rw [hmain])
      refine ⟨?_, fatalStop_intro _ hf.1 hf.2.1 hf.2.2.2.1⟩
      rw [hr.1, hmain]
      simp [checkEvents, Event.isCheck, popplerEvent]
    | some q =>
      have hw : w.isFile (q ++ "/pdftoppm") = false := by simpa [popplerFound] using h2
      have hdep : check_dependencies w (some q) =
          ([Event.checkImport, Event.checkPopplerAt q, Event.logError (msgNoPopplerAt q)],
           Status.exited 1) := by
        simp [check_dependencies, h1, hw]
      have hmain : main w ⟨pdf, out, dpi, fmt, some q⟩ =
          ⟨[Event.checkImport, Event.checkPopplerAt q, Event.logError (msgNoPopplerAt q)], [],
            Status.exited 1⟩ := by
        simp [main, hdep]
      have hr := runProcess_trace_of_exited w _ 1 (by rw [hmain])
      refine ⟨?_, fatalStop_intro _ hf.1 hf.2.1 hf.2.2.2.1⟩
      rw [hr.1, hmain]
      simp [checkEvents, Event.isCheck, popplerEvent]
  · -- source file missing
    intro h1 h2 h3
    have hf := main_fail w ⟨pdf, out, dpi, fmt, pp⟩ (by simp [preOk, h3])
    have hdep := dep_eq_ok w pp h1 h2
    have hperm : check_file_permissions w pdf out =
        ([Event.checkIsFile pdf, Event.logError (msgPdfMissing pdf)], Status.exited 1) := by
      simp [check_file_permissions, h3]
    have hmain : main w ⟨pdf, out, dpi, fmt, pp⟩ =
        ⟨depTrace pp ++ [Event.checkIsFile pdf, Event.logError (msgPdfMissing pdf)], [],
          Status.exited 1⟩ := by
      simp [main, hdep, hperm]
    have hr := runProcess_trace_of_exited w _ 1 (by rw [hmain])
    refine ⟨?_, fatalStop_intro _ hf.1 hf.2.1 hf.2.2.2.1⟩
    rw [hr.1, hmain, checkEvents_append, (depTrace_flags pp).2.2.2.2.2]
    cases pp <;> simp [depTrace, popplerEvent, checkEvents, Event.isCheck]
  · -- source file unreadable
    intro h1 h2 h3 h4
    have hf := main_fail w ⟨pdf, out, dpi, fmt, pp⟩ (by simp [preOk, h4])
    have hdep := dep_eq_ok w pp h1 h2
    have hperm : check_file_permissions w pdf out =
        ([Event.checkIsFile pdf, Event.checkReadable pdf,
          Event.logError (msgPdfUnreadable pdf)], Status.exited 1) := by
      simp [check_file_permissions, h3, h4]
    have hmain : main w ⟨pdf, out, dpi, fmt, pp⟩ =
        ⟨depTrace pp ++ [Event.checkIsFile pdf, Event.checkReadable pdf,
          Event.logError (msgPdfUnreadable pdf)], [], Status.exited 1⟩ := by
      simp [main, hdep, hperm]
    have hr := runProcess_trace_of_exited w _ 1 (by rw [hmain])
    refine ⟨?_, fatalStop_intro _ hf.1 hf.2.1 hf.2.2.2.1⟩
    rw [hr.1, hmain, checkEvents_append, (depTrace_flags pp).2.2.2.2.2]
    cases pp <;> simp [depTrace, popplerEvent, checkEvents, Event.isCheck]
  · -- directory creation fails
    intro h1 h2 h3 h4 h5 h6
    have hf := main_fail w ⟨pdf, out, dpi, fmt, pp⟩ (by simp [preOk, dirOk, h5, h6])
    have hdep := dep_eq_ok w pp h1 h2
    have hperm : check_file_permissions w pdf out =
        ([Event.checkIsFile pdf, Event.checkReadable pdf, Event.mkdirCall out,
          Event.logError (msgMkdirFailed out)], Status.exited 1) := by
      simp [check_file_permissions, h3, h4, h5, h6]
    have hmain : main w ⟨pdf, out, dpi, fmt, pp⟩ =
        ⟨depTrace pp ++ [Event.checkIsFile pdf, Event.checkReadable pdf, Event.mkdirCall out,
          Event.logError (msgMkdirFailed out)], [], Status.exited 1⟩ := by
      simp [main, hdep, hperm]
    have hr := runProcess_trace_of_exited w _ 1 (by rw [hmain])
    refine ⟨?_, fatalStop_intro _ hf.1 hf.2.1 hf.2.2.2.1⟩
    rw [hr.1, hmain, checkEvents_append, (depTrace_flags pp).2.2.2.2.2]
    cases pp <;> simp [depTrace, popplerEvent, checkEvents, Event.isCheck]
  · -- directory not writable
    intro h1 h2 h3 h4 h5 h6
    have hf := main_fail w ⟨pdf, out, dpi, fmt, pp⟩ (by simp [preOk, dirOk, h6])
    have hdep := dep_eq_ok w pp h1 h2
    cases hid : w.isDir out with
    | true =>
      have hperm : check_file_permissions w pdf out =
          ([Event.checkIsFile pdf, Event.checkReadable pdf, Event.checkWritable out,
            Event.logError (msgDirUnwritable out)], Status.exited 1) := by
        simp [check_file_permissions, h3, h4, hid, h6]
      have hmain : main w ⟨pdf, out, dpi, fmt, pp⟩ =
          ⟨depTrace pp ++ [Event.checkIsFile pdf, Event.checkReadable pdf,
            Event.checkWritable out, Event.logError (msgDirUnwritable out)], [],
            Status.exited 1⟩ := by
        simp [main, hdep, hperm]
      have hr := runProcess_trace_of_exited w _ 1 (by rw [hmain])
      refine ⟨?_, fatalStop_intro _ hf.1 hf.2.1 hf.2.2.2.1⟩
      rw [hr.1, hmain, checkEvents_append, (depTrace_flags pp).2.2.2.2.2]
      cases pp <;> simp [depTrace, popplerEvent, checkEvents, Event.isCheck, fullChecks, hid]
    | false =>
      have hmk : w.makedirsOk out = true := by
        rw [hid] at h5
        simpa using h5
      have hperm : check_file_permissions w pdf out =
          ([Event.checkIsFile pdf, Event.checkReadable pdf, Event.mkdirCall out,
            Event.checkWritable out, Event.logError (msgDirUnwritable out)],
           Status.exited 1) := by
        simp [check_file_permissions, h3, h4, hid, hmk, h6]
      have hmain : main w ⟨pdf, out, dpi, fmt, pp⟩ =
          ⟨depTrace pp ++ [Event.checkIsFile pdf, Event.checkReadable pdf,
            Event.mkdirCall out, Event.checkWritable out,
            Event.logError (msgDirUnwritable out)], [], Status.exited 1⟩ := by
        simp [main, hdep, hperm]
      have hr := runProcess_trace_of_exited w _ 1 (by rw [hmain])
      refine ⟨?_, fatalStop_intro _ hf.1 hf.2.1 hf.2.2.2.1⟩
      rw [hr.1, hmain, checkEvents_append, (depTrace_flags pp).2.2.2.2.2]
      cases pp <;> simp [depTrace, popplerEvent, checkEvents, Event.isCheck, fullChecks, hid]
  · -- all checks pass: check order complete, rasterization runs
    intro hpre
    have hmain := main_eq_of_preOk w _ hpre
    dsimp only at hmain
    have hinst : w.pdf2imageInstalled = true := by
      simp only [preOk, Bool.and_eq_true] at hpre
      exact hpre.1.1.1.1
    have hchk : checkEvents (main w ⟨pdf, out, dpi, fmt, pp⟩).trace =
        fullChecks w ⟨pdf, out, dpi, fmt, pp⟩ := by
      rw [hmain]
      dsimp only
      rw [checkEvents_append, checkEvents_append, checkEvents_append,
        (depTrace_flags pp).2.2.2.2.2, (permTrace_flags w pdf out).2.2.2.2.2,
        (stdoutTrace_flags ⟨pdf, out, dpi, fmt, pp⟩).2.2.2.2.2, conv_checkEvents]
      cases pp <;> cases hid : w.isDir out <;>
        simp [depTrace, permTrace, fullChecks, popplerEvent, hid]
    have hras : hasRasterize (main w ⟨pdf, out, dpi, fmt, pp⟩).trace = true := by
      rw [hmain]
      dsimp only
      simp only [hasRasterize_append]
      rw [(depTrace_flags pp).2.2.1, (permTrace_flags w pdf out).2.2.1,
        (stdoutTrace_flags ⟨pdf, out, dpi, fmt, pp⟩).2.2.1, conv_hasRasterize, hinst]
      rfl
    rcases runProcess_trace_cases w ⟨pdf, out, dpi, fmt, pp⟩ with htr | ⟨e, htr⟩
    · rw [htr]
      exact ⟨hchk, hras⟩
    · constructor
      · rw [htr, checkEvents_append, hchk]
        simp [checkEvents, Event.isCheck]
      · rw [htr, hasRasterize_append, hras]
        rfl

/-- Witness for claim C4: the check-phase specification holds for the run
whose source file is missing. -/
theorem claimC4_witness : checkPhaseSpec wNoPdf aPng (runProcess wNoPdf aPng) :=
  claimC4 wNoPdf aPng

/-- Claim C7: when the output directory does not exist it is created before
any page is written, and when it cannot be created or is not writable the
run exits with code 1 after logging an error, with no output file created
and no rasterization call made. -/
theorem claimC7 (w : World) (a : Args) : destinationSpec w a (runProcess w a) := by
  obtain ⟨pdf, out, dpi, fmt, pp⟩ := a
  constructor
  · intro hdir
    by_cases hpre : preOk w ⟨pdf, out, dpi, fmt, pp⟩ = true
    · have hmain := main_eq_of_preOk w _ hpre
      dsimp only at hmain
      rcases runProcess_trace_cases w ⟨pdf, out, dpi, fmt, pp⟩ with htr | ⟨e, htr⟩ <;>
        rw [htr, hmain] <;> dsimp only <;>
        cases pp <;>
        simp [depTrace, permTrace, hdir, savesAfterMkdir]
    · have hfalse : preOk w ⟨pdf, out, dpi, fmt, pp⟩ = false := by
        revert hpre
        cases preOk w ⟨pdf, out, dpi, fmt, pp⟩ <;> simp
      have hf := main_fail w ⟨pdf, out, dpi, fmt, pp⟩ hfalse
      exact savesAfterMkdir_of_noSave out _ hf.2.2.2.2
  · intro hfail
    have hfalse : preOk w ⟨pdf, out, dpi, fmt, pp⟩ = false := by
      simp [preOk, hfail]
    have hf := main_fail w ⟨pdf, out, dpi, fmt, pp⟩ hfalse
    exact ⟨hf.1, hf.2.1, hf.2.2.1, hf.2.2.2.1⟩

/-- Witness for claim C7: the destination specification holds for the run
that must create its output directory before writing two pages. -/
theorem claimC7_witness : destinationSpec wMkdir aPng (runProcess wMkdir aPng) :=
  claimC7 wMkdir aPng

end Extractor
